import Mathlib

/-!
Verification of the research-gap-analysis backend core
(file research_analyzer.py of the repository) against its
natural-language specification.

The Python code is shallowly embedded: pure computations become Lean
functions; network I/O and pseudo-random draws become explicit oracle
parameters (a response value, respectively a record of draw functions);
Python exceptions become an explicit Except value supplied by the
environment where the code genuinely can raise.  Python strings are
modelled by Lean String (sequences of characters); str.lower is modelled
by String.toLower, len(s) by String.length, s[:n] by taking the first n
characters.  Regex operations of the source are translated to equivalent
character-list scans, which agree with the Python regexes on the inputs
the code feeds them (documented at each definition).
-/

set_option maxRecDepth 40000

namespace ResearchAnalyzer

/-- Model of a normalized paper record (the dictionaries built by the
paper source clients and the mock generator). -/
structure PaperRecord where
  id : String
  title : String
  abstract : String
  authors : List String
  published : String
  source : String
  citations : Nat
  url : String
  fields : List String
deriving DecidableEq, Repr

/-- Python str.lower restricted to ASCII (every character the claims
exercise): lowercase each character. -/
def pyLower (s : String) : String :=
  String.mk (s.toList.map Char.toLower)

/-- Helper for the substring test: pat occurs at some position of the
second list. -/
def strInAux (pat : List Char) : List Char → Bool
  | [] => pat.isEmpty
  | c :: cs => pat.isPrefixOf (c :: cs) || strInAux pat cs

/-- Python substring test (the expression pat in s): pat occurs
contiguously in s. -/
def strIn (pat s : String) : Bool :=
  strInAux pat.toList s.toList

/-- Python slice s[:n] for n at least 0: the first n characters of s. -/
def pySlice (s : String) (n : Nat) : String :=
  String.mk (s.toList.take n)

/-- Python word character for the regex class backslash-w restricted to
the characters present after lowercasing: letters, digits, underscore. -/
def isWordChar (c : Char) : Bool :=
  c.isAlphanum || c = '_'

/-- Model of re.sub applied with pattern [^ word or space ] and
replacement a single space: every character that is neither a word
character nor whitespace becomes a space. -/
def scrub (s : String) : String :=
  String.mk (s.toList.map (fun c => if isWordChar c || c.isWhitespace then c else ' '))

/-- Accumulating splitter: cuts a character list into its maximal runs of
word characters. -/
def wordRunsAux : List Char → List Char → List (List Char)
  | [], acc => if acc.isEmpty then [] else [acc.reverse]
  | c :: cs, acc =>
    if isWordChar c then wordRunsAux cs (c :: acc)
    else if acc.isEmpty then wordRunsAux cs acc
    else acc.reverse :: wordRunsAux cs []

/-- Maximal runs of word characters of a string. -/
def wordRuns (s : String) : List (List Char) :=
  wordRunsAux s.toList []

/-- Model of re.findall with pattern word-boundary, 4 or more ASCII
letters, word-boundary, applied to the scrubbed text.  On a text whose
characters are only word characters and whitespace (which is what scrub
produces), the regex matches exactly the maximal word-character runs
that consist solely of letters and have length at least 4: a run
containing a digit or underscore yields no match because the boundary
assertion fails inside the run. -/
def findTokens (s : String) : List String :=
  ((wordRuns s).filter (fun r => decide (4 ≤ r.length) && r.all Char.isAlpha)).map
    (fun r => String.mk r)

/-- The fixed stopword set self.common_words of the analyzer. -/
def common_words : List String :=
  ["research", "paper", "study", "method", "result", "analysis",
   "data", "using", "based", "approach", "show", "propose",
   "present", "develop", "investigate"]

/-- First-occurrence deduplication by a key, carrying the set of keys
already seen; models the seen-set loops of the source and, with the
identity key, Python list(set(..)) construction (whose iteration order
is unspecified; first-occurrence order is one admissible model and no
claim depends on the order chosen). -/
def dedupByKey {α β : Type} [DecidableEq β] (key : α → β) : List α → List β → List α
  | [], _ => []
  | x :: xs, seen =>
    if key x ∈ seen then dedupByKey key xs seen
    else x :: dedupByKey key xs (key x :: seen)

/-- First-occurrence deduplication of a list. -/
def dedupFirst {α : Type} [DecidableEq α] (l : List α) : List α :=
  dedupByKey id l []

/-- Stable insertion for descending-by-count order: an element is placed
before the first element whose count is not larger, which models the
stability of the sort inside Counter.most_common (ties keep
first-insertion order). -/
def insertByCount (x : String × Nat) : List (String × Nat) → List (String × Nat)
  | [] => [x]
  | y :: ys => if y.2 ≤ x.2 then x :: y :: ys else y :: insertByCount x ys

/-- Stable sort, descending by count. -/
def sortByCountDesc (l : List (String × Nat)) : List (String × Nat) :=
  l.foldr insertByCount []

/-- Model of Counter(ws).most_common(n) keeping only the words: distinct
words in first-occurrence order paired with their multiplicities, stably
sorted by descending count, truncated to n. -/
def most_common (n : Nat) (ws : List String) : List String :=
  (sortByCountDesc ((dedupFirst ws).map (fun w => (w, ws.count w)))).map Prod.fst
    |>.take n

/-- Embedding of ResearchAnalyzer.extract_keywords.  The surrounding
try/except of the source is not modelled because no operation in the
body can raise. -/
def extract_keywords (text : String) (num_keywords : Nat) : List String :=
  if text = "" || text.length < 20 then
    ["research", "analysis", "study", "methodology"]
  else
    let cleaned := scrub (pyLower text)
    let words := findTokens cleaned
    let filtered_words := words.filter (fun w => ¬ w ∈ common_words)
    if filtered_words.isEmpty then
      ["research", "analysis", "method", "application"]
    else
      most_common num_keywords filtered_words

/-- Model of the gaps-analysis dictionary returned by identify_gaps. -/
structure GapAnalysis where
  gaps : List String
  directions : List String
  cross_disciplinary : List String
  impact_areas : List String
deriving DecidableEq, Repr

/-- The cross_disciplinary list, identical on every branch. -/
def crossDisciplinaryFixed : List String :=
  ["Integration with data science methods",
   "Application in healthcare innovation",
   "Combination with sustainable technologies",
   "Use in educational advancements"]

/-- The impact_areas list, identical on every branch. -/
def impactAreasFixed : List String :=
  ["Industry 4.0 and automation",
   "Healthcare and wellbeing",
   "Environmental sustainability",
   "Education and skill development"]

/-- The AI/ML bucket of identify_gaps. -/
def gapAnalysisAI : GapAnalysis :=
  { gaps :=
      ["Lack of explainability and interpretability in AI models",
       "Ethical considerations and bias mitigation in AI systems",
       "Limited real-world deployment and scalability studies",
       "Integration of AI with traditional domain knowledge"],
    directions :=
      ["Developing transparent and interpretable AI systems",
       "Creating ethical frameworks for AI deployment",
       "Building robust AI systems for real-world applications",
       "Cross-disciplinary AI research with domain experts"],
    cross_disciplinary := crossDisciplinaryFixed,
    impact_areas := impactAreasFixed }

/-- The climate bucket of identify_gaps. -/
def gapAnalysisClimate : GapAnalysis :=
  { gaps :=
      ["Limited long-term climate impact studies",
       "Scalability of sustainable technologies",
       "Economic feasibility of green solutions",
       "Policy implementation challenges"],
    directions :=
      ["Longitudinal climate studies",
       "Cost-effective sustainable technologies",
       "Policy-economy integration models",
       "Community-based environmental solutions"],
    cross_disciplinary := crossDisciplinaryFixed,
    impact_areas := impactAreasFixed }

/-- The health bucket of identify_gaps. -/
def gapAnalysisHealth : GapAnalysis :=
  { gaps :=
      ["Personalized medicine implementation challenges",
       "Data privacy in healthcare applications",
       "Integration of traditional and modern medicine",
       "Accessibility of advanced medical technologies"],
    directions :=
      ["AI-driven personalized treatment plans",
       "Secure healthcare data systems",
       "Integrative medicine approaches",
       "Affordable medical technology solutions"],
    cross_disciplinary := crossDisciplinaryFixed,
    impact_areas := impactAreasFixed }

/-- The generic bucket of identify_gaps, templated with the raw query. -/
def gapAnalysisGeneric (query : String) : GapAnalysis :=
  { gaps :=
      ["Limited interdisciplinary studies on " ++ query,
       "Insufficient real-world application of " ++ query ++ " research",
       "Geographical and cultural bias in " ++ query ++ " studies",
       "Methodological limitations in current " ++ query ++ " research"],
    directions :=
      ["Cross-disciplinary approaches to " ++ query,
       "Practical implementation frameworks for " ++ query,
       "Global comparative studies on " ++ query,
       "Novel methodologies for " ++ query ++ " analysis"],
    cross_disciplinary := crossDisciplinaryFixed,
    impact_areas := impactAreasFixed }

/-- Embedding of ResearchAnalyzer.identify_gaps.  The papers argument is
accepted, as in the source, and never read.  The source slices each
gaps/directions list with [:4]; all lists have exactly 4 elements, so
the slice is the identity and is kept implicit here. -/
def identify_gaps (query : String) (papers : List PaperRecord) : GapAnalysis :=
  let query_lower := pyLower query
  if ["ai", "artificial intelligence", "machine learning"].any
      (fun word => strIn word query_lower) then
    gapAnalysisAI
  else if ["climate", "environment", "sustainable"].any
      (fun word => strIn word query_lower) then
    gapAnalysisClimate
  else if ["health", "medical", "biomedical"].any
      (fun word => strIn word query_lower) then
    gapAnalysisHealth
  else
    gapAnalysisGeneric query

/-- The fixed 9-element domain pool of the mock generator. -/
def domains : List String :=
  ["Machine Learning", "Artificial Intelligence", "Data Science",
   "Biotechnology", "Renewable Energy", "Quantum Computing",
   "Neuroscience", "Climate Science", "Biomedical Engineering"]

/-- The five mock title templates, interpolated with query and domain. -/
def mock_titles (query selected_domain : String) : List String :=
  ["Advances in " ++ query ++ " and " ++ selected_domain,
   "Novel Approaches to " ++ query ++ ": A Comprehensive Study",
   query ++ " in Modern " ++ selected_domain ++ " Applications",
   "Future Directions in " ++ query ++ " Research",
   "Experimental Analysis of " ++ query ++ " Using Advanced Methods"]

/-- The five mock abstract templates, interpolated with query (and, for
the third, the domain).  The source stores them verbatim in the record:
no 400-character truncation is applied on this path. -/
def mock_abstracts (query selected_domain : String) : List String :=
  ["This paper presents groundbreaking research on " ++ query ++
     ". Our study reveals new insights that challenge existing paradigms in the field. The methodology combines traditional approaches with innovative techniques to achieve unprecedented results.",
   "Recent developments in " ++ query ++
     " have opened new avenues for research. This study investigates key challenges and proposes solutions that could transform current practices. Our findings suggest significant opportunities for future work.",
   "The intersection of " ++ query ++ " and " ++ selected_domain ++
     " represents a fertile ground for innovation. This research explores synergistic effects that could lead to major breakthroughs. Experimental results validate our theoretical framework.",
   "This comprehensive review analyzes the current state of " ++ query ++
     " research. We identify critical gaps in knowledge and propose a roadmap for future investigations. The study highlights promising directions for academic and industrial applications.",
   "Through systematic experimentation, this research demonstrates novel applications of " ++ query ++
     ". The proposed framework offers scalable solutions to long-standing problems. Results indicate substantial improvements over existing methods."]

/-- Oracle for every pseudo-random draw of the module, one field per
call site, indexed by loop position where the draw happens per paper.
A draw random.randint(a, b) is modelled as a plus the oracle value
modulo (b minus a plus 1), so it always lies in the inclusive range. -/
structure MockRand where
  domainIdx : Nat
  mockIdNum : Nat → Nat
  mockAuthors : Nat → List String
  mockYearOff : Nat → Nat
  mockMonth : Nat → Nat
  mockDay : Nat → Nat
  mockCit : Nat → Nat
  ssIdNum : Nat → Nat
  ssYearOff : Nat → Nat
  ssCit : Nat → Nat
  axIdNum : Nat → Nat
  axCit : Nat → Nat

/-- Zero-pads a number below 100 to two digits (the Python format 02d). -/
def pad2 (n : Nat) : String :=
  if n < 10 then "0" ++ toString n else toString n

/-- Embedding of ResearchAnalyzer._generate_mock_papers.  currentYear
models datetime.now().year; random draws come from the oracle. -/
def generate_mock_papers (r : MockRand) (currentYear : Nat) (query : String)
    (count : Nat) : List PaperRecord :=
  let selected_domain := domains.getD (r.domainIdx % domains.length) ""
  (List.range (min count 5)).map (fun i =>
    let year := currentYear - r.mockYearOff i % 6
    { id := "mock_" ++ toString (i + 1) ++ "_" ++ toString (10000 + r.mockIdNum i % 90000),
      title := (mock_titles query selected_domain).getD i "",
      abstract := (mock_abstracts query selected_domain).getD i "",
      authors := (r.mockAuthors i).map (fun name => "Dr. " ++ name),
      published := toString year ++ "-" ++ pad2 (1 + r.mockMonth i % 12) ++ "-" ++
        pad2 (1 + r.mockDay i % 28),
      source := "Research Database",
      citations := 5 + r.mockCit i % 246,
      url := "https://research-database.org/paper/" ++ toString (i + 1),
      fields := [selected_domain, "Research Methodology", "Applied Science"] })

/-- One paper object of the parsed scholarly-graph JSON response; every
field the code reads with .get is optional. -/
structure SSRawPaper where
  paperId : Option String
  title : Option String
  abstract : Option String
  authors : Option (List (Option String))
  year : Option Int
  url : Option String
  citationCount : Option Nat
  fieldsOfStudy : Option (List String)

/-- Outcome of the scholarly-graph HTTP call: the GET itself raised, or
a status code arrived with a body whose JSON parse either raised or
produced the list under the data key. -/
inductive SSResponse where
  | raiseExc (msg : String)
  | http (status : Nat) (body : Except String (List SSRawPaper))

/-- The templated abstract substituted when the fetched abstract is
missing or shorter than 50 characters. -/
def ssDefaultAbstract (query : String) : String :=
  "This research paper explores various aspects of " ++ query ++
    ". The study presents findings that contribute to the understanding of this field."

/-- Mapping of one raw scholarly-graph paper at loop index i to a
normalized record, with the defensive defaults of the source. -/
def ssRawToPaper (r : MockRand) (currentYear : Nat) (query : String)
    (i : Nat) (paper : SSRawPaper) : PaperRecord :=
  let a0 := paper.abstract.getD ""
  let abstract := if a0 = "" || a0.length < 50 then ssDefaultAbstract query else a0
  { id := paper.paperId.getD ("ss_" ++ toString (10000 + r.ssIdNum i % 90000)),
    title := paper.title.getD ("Research on " ++ query),
    abstract := pySlice abstract 400,
    authors := ((paper.authors.getD [none]).map (fun a => a.getD "Researcher")),
    published := (paper.year.map toString).getD
      (toString (currentYear - r.ssYearOff i % 4)),
    source := "Semantic Scholar",
    citations := paper.citationCount.getD (1 + r.ssCit i % 200),
    url := paper.url.getD
      ("https://www.semanticscholar.org/paper/" ++ paper.paperId.getD ""),
    fields := paper.fieldsOfStudy.getD [] }

/-- Embedding of ResearchAnalyzer.search_semantic_scholar: any raised
exception (network or JSON parse) and any non-200 status fall back to
the mock generator; a 200 response maps the first max_results raw
papers. -/
def search_semantic_scholar (resp : SSResponse) (r : MockRand) (currentYear : Nat)
    (query : String) (max_results : Nat) : List PaperRecord :=
  match resp with
  | .raiseExc _ => generate_mock_papers r currentYear query max_results
  | .http status body =>
    if status ≠ 200 then generate_mock_papers r currentYear query max_results
    else
      match body with
      | .error _ => generate_mock_papers r currentYear query max_results
      | .ok data =>
        ((data.take max_results).enum).map
          (fun ip => ssRawToPaper r currentYear query ip.1 ip.2)

/-- Python str.strip: whitespace removed from both ends. -/
def pyStrip (s : String) : String :=
  String.mk (((s.toList.dropWhile Char.isWhitespace).reverse.dropWhile
    Char.isWhitespace).reverse)

/-- One entry block of the preprint XML-like response, with the values
the per-entry regular expressions would extract (none when the pattern
does not match); parseFails models an exception raised while handling
this entry, which the per-entry try/continue turns into a skip. -/
structure ArxivRawEntry where
  title : Option String
  summary : Option String
  names : List String
  published : Option String
  arxivId : Option String
  parseFails : Bool

/-- Outcome of the preprint HTTP call: the GET raised, or a status code
arrived with the entry blocks obtained by splitting the body text. -/
inductive ArxivResponse where
  | raiseExc (msg : String)
  | http (status : Nat) (entries : List ArxivRawEntry)

/-- Mapping of one well-formed preprint entry at loop index i to a
normalized record, with the defaults of the source. -/
def axEntryToPaper (r : MockRand) (currentYear : Nat) (query : String)
    (i : Nat) (e : ArxivRawEntry) : PaperRecord :=
  let title := (e.title.map pyStrip).getD ("Research on " ++ query)
  let abstract := (e.summary.map pyStrip).getD ("Study focusing on " ++ query)
  let authors := e.names.take 3
  let published := (e.published.map (fun s => pySlice s 10)).getD (toString currentYear)
  let paper_id := e.arxivId.getD ("arxiv_" ++ toString (1000000 + r.axIdNum i % 9000000))
  { id := paper_id,
    title := title,
    abstract := pySlice abstract 400,
    authors := if authors.isEmpty then ["Researcher"] else authors,
    published := published,
    source := "arXiv",
    citations := 10 + r.axCit i % 291,
    url := "https://arxiv.org/abs/" ++ paper_id,
    fields := ["Physics", "Computer Science", "Mathematics"] }

/-- Embedding of ResearchAnalyzer.search_arxiv_simple: any raised
exception and any non-200 status degrade to the empty list; otherwise
the first max_results entries are mapped, entries whose handling raises
being skipped by the per-entry try/continue. -/
def search_arxiv_simple (resp : ArxivResponse) (r : MockRand) (currentYear : Nat)
    (query : String) (max_results : Nat) : List PaperRecord :=
  match resp with
  | .raiseExc _ => []
  | .http status entries =>
    if status ≠ 200 then []
    else
      (((entries.take max_results).filter (fun e => !e.parseFails)).enum).map
        (fun ip => axEntryToPaper r currentYear query ip.1 ip.2)

/-- Embedding of ResearchAnalyzer.search_all_sources.  The try/except
around each source call is a no-op in the model because the embedded
clients are total (they absorb their own failures, as the source does);
the rate-limiting sleep has no observable effect and is omitted. -/
def search_all_sources (ssResp : SSResponse) (axResp : ArxivResponse) (r : MockRand)
    (currentYear : Nat) (query : String) (max_per_source : Nat) : List PaperRecord :=
  let all_papers :=
    search_semantic_scholar ssResp r currentYear query max_per_source ++
      search_arxiv_simple axResp r currentYear query max_per_source
  let all_papers :=
    if all_papers.isEmpty then generate_mock_papers r currentYear query (max_per_source * 2)
    else all_papers
  (dedupByKey (fun p => pyLower p.title) all_papers []).take (max_per_source * 2)

/-- Scans a character list for the first run of 4 consecutive decimal
digits and returns its numeric value; models re.search of 4 digits
followed by int() on the match. -/
def find4Digits : List Char → Option Nat
  | c1 :: c2 :: c3 :: c4 :: rest =>
    if c1.isDigit && c2.isDigit && c3.isDigit && c4.isDigit then
      some (((c1.toNat - 48) * 10 + (c2.toNat - 48)) * 100 +
        ((c3.toNat - 48) * 10 + (c4.toNat - 48)))
    else find4Digits (c2 :: c3 :: c4 :: rest)
  | _ => none

/-- Descending insertion into a descending list. -/
def insertDescNat (x : Nat) : List Nat → List Nat
  | [] => [x]
  | y :: ys => if y ≤ x then x :: y :: ys else y :: insertDescNat x ys

/-- Sort in descending order; models Python sorted with reverse=True. -/
def sortDescNat (l : List Nat) : List Nat :=
  l.foldr insertDescNat []

/-- Rounds a rational to one decimal place with ties to even, the
behaviour of Python round; the source computes on binary floats, whose
representation error no claim depends on, so exact rationals model
them. -/
def round1 (x : ℚ) : ℚ :=
  let y := x * 10
  let f : ℤ := Int.floor y
  let frac : ℚ := y - (f : ℚ)
  let n : ℤ :=
    if frac < 1 / 2 then f
    else if 1 / 2 < frac then f + 1
    else if 2 ∣ f then f else f + 1
  (n : ℚ) / 10

/-- Model of the trends dictionary of analyze_trends.  fields is
optional because the empty-input branch of the source returns a
dictionary without a fields key. -/
structure TrendSummary where
  top_keywords : List (String × Nat)
  total_papers : Nat
  sources : List String
  average_citations : ℚ
  recent_years : List Nat
  fields : Option (List String)
deriving DecidableEq, Repr

/-- Embedding of ResearchAnalyzer.analyze_trends; kr is the oracle for
the random keyword counts (randint(3, 25) per keyword).  The except
branch of the source is unreachable in the model because every
operation of the body is total on well-typed records. -/
def analyze_trends (kr : Nat → Nat) (papers : List PaperRecord) : TrendSummary :=
  if papers.isEmpty then
    { top_keywords := [], total_papers := 0, sources := ["Demo Data"],
      average_citations := 0, recent_years := [], fields := none }
  else
    let all_text := String.intercalate " "
      ((papers.filter (fun p => p.abstract ≠ "")).map (fun p => p.abstract))
    let keywords := extract_keywords all_text 8
    let top_keywords := keywords.enum.map (fun ik => (ik.2, 3 + kr ik.1 % 23))
    let sources := dedupFirst (papers.map (fun p => p.source))
    let citations := papers.map (fun p => p.citations)
    let avg : ℚ :=
      if citations.isEmpty then 0 else (citations.sum : ℚ) / (citations.length : ℚ)
    let years := papers.filterMap
      (fun p => if p.published = "" then none else find4Digits p.published.toList)
    let recent_years :=
      if years.isEmpty then [] else (sortDescNat (dedupFirst years)).take 3
    { top_keywords := top_keywords,
      total_papers := papers.length,
      sources := sources,
      average_citations := round1 avg,
      recent_years := recent_years,
      fields := some ((dedupFirst ((papers.map (fun p => p.fields)).flatten)).take 5) }

/-- Model of the summary dictionary of the orchestrator.  trends is
optional because the degraded branch emits an empty dictionary there;
error is absent on the success branch. -/
structure AnalysisResult where
  query : String
  total_papers_analyzed : Nat
  trends : Option TrendSummary
  gaps_analysis : GapAnalysis
  sample_papers : List PaperRecord
  analysis_timestamp : String
  error : Option String
deriving Repr

/-- Embedding of ResearchAnalyzer.generate_comprehensive_analysis.  agg
is the outcome of the search_all_sources call, the one step of the
guarded sequence that can raise (the embedded trend and gap steps are
total, mirroring their own internal absorption of errors); now models
datetime.now().isoformat(). -/
def generate_comprehensive_analysis (agg : Except String (List PaperRecord))
    (kr : Nat → Nat) (query : String) (now : String) : AnalysisResult :=
  match agg with
  | .ok papers =>
    { query := query,
      total_papers_analyzed := papers.length,
      trends := some (analyze_trends kr papers),
      gaps_analysis := identify_gaps query papers,
      sample_papers := papers.take 4,
      analysis_timestamp := now,
      error := none }
  | .error e =>
    { query := query,
      total_papers_analyzed := 0,
      trends := none,
      gaps_analysis :=
        { gaps := ["Analysis temporarily unavailable"],
          directions := ["Please try again"],
          cross_disciplinary := [], impact_areas := [] },
      sample_papers := [],
      analysis_timestamp := now,
      error := some e }

/-! General lemmas about the helper functions. -/

theorem dedupByKey_sublist {α β : Type} [DecidableEq β] (key : α → β) :
    ∀ (l : List α) (seen : List β), List.Sublist (dedupByKey key l seen) l := by
  intro l
  induction l with
  | nil => intro seen; simp [dedupByKey]
  | cons x xs ih =>
    intro seen
    simp only [dedupByKey]
    split
    · exact (ih _).trans (List.sublist_cons_self x xs)
    · exact (ih _).cons₂ x

theorem key_not_mem_of_mem_dedupByKey {α β : Type} [DecidableEq β] (key : α → β) :
    ∀ (l : List α) (seen : List β) (x : α),
      x ∈ dedupByKey key l seen → key x ∉ seen := by
  intro l
  induction l with
  | nil => intro seen x hx; simp [dedupByKey] at hx
  | cons y ys ih =>
    intro seen x hx
    simp only [dedupByKey] at hx
    by_cases hmem : key y ∈ seen
    · rw [if_pos hmem] at hx
      exact ih _ _ hx
    · rw [if_neg hmem] at hx
      rcases List.mem_cons.mp hx with h | h
      · subst h; exact hmem
      · have := ih _ _ h
        intro hc
        exact this (List.mem_cons_of_mem _ hc)

theorem pairwise_dedupByKey {α β : Type} [DecidableEq β] (key : α → β) :
    ∀ (l : List α) (seen : List β),
      (dedupByKey key l seen).Pairwise (fun a b => key a ≠ key b) := by
  intro l
  induction l with
  | nil => intro seen; simp [dedupByKey]
  | cons y ys ih =>
    intro seen
    simp only [dedupByKey]
    split
    · exact ih _
    · refine List.Pairwise.cons ?_ (ih _)
      intro b hb hkey
      have := key_not_mem_of_mem_dedupByKey key _ _ _ hb
      exact this (by rw [← hkey]; exact List.mem_cons_self _ _)

theorem nodup_dedupFirst {α : Type} [DecidableEq α] (l : List α) :
    (dedupFirst l).Nodup := by
  have h := pairwise_dedupByKey (id : α → α) l []
  simpa [dedupFirst, List.Nodup] using h

theorem insertDescNat_perm (x : Nat) (l : List Nat) :
    List.Perm (insertDescNat x l) (x :: l) := by
  induction l with
  | nil => simp [insertDescNat]
  | cons y ys ih =>
    simp only [insertDescNat]
    split
    · exact List.Perm.refl _
    · exact (ih.cons y).trans (List.Perm.swap x y ys)

theorem sortDescNat_perm (l : List Nat) : List.Perm (sortDescNat l) l := by
  induction l with
  | nil => simp [sortDescNat]
  | cons x xs ih =>
    have : sortDescNat (x :: xs) = insertDescNat x (sortDescNat xs) := rfl
    rw [this]
    exact (insertDescNat_perm x (sortDescNat xs)).trans (ih.cons x)

theorem sorted_insertDescNat (x : Nat) (l : List Nat)
    (h : l.Pairwise (fun a b => b ≤ a)) :
    (insertDescNat x l).Pairwise (fun a b => b ≤ a) := by
  induction l with
  | nil => simp [insertDescNat]
  | cons y ys ih =>
    rcases List.pairwise_cons.mp h with ⟨hy, hys⟩
    simp only [insertDescNat]
    split
    · rename_i hle
      refine List.pairwise_cons.mpr ⟨?_, h⟩
      intro b hb
      rcases List.mem_cons.mp hb with hb | hb
      · subst hb; exact hle
      · exact (hy b hb).trans hle
    · rename_i hgt
      refine List.pairwise_cons.mpr ⟨?_, ih hys⟩
      intro b hb
      have hb2 := (insertDescNat_perm x ys).mem_iff.mp hb
      rcases List.mem_cons.mp hb2 with hb2 | hb2
      · subst hb2; omega
      · exact hy b hb2

theorem sorted_sortDescNat (l : List Nat) :
    (sortDescNat l).Pairwise (fun a b => b ≤ a) := by
  induction l with
  | nil => simp [sortDescNat]
  | cons x xs ih => exact sorted_insertDescNat x (sortDescNat xs) ih

theorem strict_sorted_sortDescNat (l : List Nat) (h : l.Nodup) :
    (sortDescNat l).Pairwise (fun a b => b < a) := by
  have hs := sorted_sortDescNat l
  have hn : (sortDescNat l).Nodup := ((sortDescNat_perm l).nodup_iff).mpr h
  have := hs.and hn
  exact this.imp (fun hab => by omega)

theorem pySlice_length_le (s : String) (n : Nat) : (pySlice s n).length ≤ n := by
  have : (pySlice s n).length = (s.toList.take n).length := rfl
  rw [this]
  exact List.length_take_le n s.toList

/-- An all-zero randomness oracle, used to instantiate witnesses. -/
def rZero : MockRand :=
  { domainIdx := 0, mockIdNum := fun _ => 0, mockAuthors := fun _ => [],
    mockYearOff := fun _ => 0, mockMonth := fun _ => 0, mockDay := fun _ => 0,
    mockCit := fun _ => 0, ssIdNum := fun _ => 0, ssYearOff := fun _ => 0,
    ssCit := fun _ => 0, axIdNum := fun _ => 0, axCit := fun _ => 0 }

/-- A concrete paper record, used as a default and in witnesses. -/
def paperSample : PaperRecord :=
  { id := "p1", title := "A Study", abstract := "An abstract", authors := ["A"],
    published := "2023-05-01", source := "Semantic Scholar", citations := 10,
    url := "https://example.org/p1", fields := ["Computer Science"] }

/-- Claim C2: on any exception raised inside the guarded analysis
sequence, generate_comprehensive_analysis returns the degraded result
with zero papers analyzed, the single-element gaps list, the
"Please try again" directions, empty cross-disciplinary and impact
lists, no sample papers, and the exception message in the error field;
it never propagates the exception (the embedding is a total function of
the aggregation outcome). -/
theorem generate_comprehensive_analysis_degraded (e : String) (kr : Nat → Nat)
    (query now : String) :
    generate_comprehensive_analysis (Except.error e) kr query now =
      { query := query, total_papers_analyzed := 0, trends := none,
        gaps_analysis :=
          { gaps := ["Analysis temporarily unavailable"],
            directions := ["Please try again"],
            cross_disciplinary := [], impact_areas := [] },
        sample_papers := [], analysis_timestamp := now, error := some e } := rfl

/-- Claim C7: analyze_trends on the empty paper list returns the fixed
zero state: no top keywords, zero total papers, the Demo Data source
label, zero average citations, and no recent years. -/
theorem analyze_trends_empty_state (kr : Nat → Nat) :
    (analyze_trends kr []).top_keywords = [] ∧
    (analyze_trends kr []).total_papers = 0 ∧
    (analyze_trends kr []).sources = ["Demo Data"] ∧
    (analyze_trends kr []).average_citations = 0 ∧
    (analyze_trends kr []).recent_years = [] :=
  ⟨rfl, rfl, rfl, rfl, rfl⟩

/-- Claim C3, counterexample: extract_keywords applied to the empty
string with a requested count of 3 returns 4 elements, so the claimed
bound of at most n elements for every n fails at n = 3. -/
theorem extract_keywords_bound_counterexample :
    ¬ ((extract_keywords "" 3).length ≤ 3) := by decide

/-- Claim C3, amended: for every n, extract_keywords of the empty string
and of any text shorter than 20 characters is the fixed 4-element
fallback list, and for every text the result has at most max n 4
elements (the claimed bound of n holds once n is at least 4; the
fallback paths always return 4 elements). -/
theorem extract_keywords_fallback_bound (n : Nat) :
    extract_keywords "" n = ["research", "analysis", "study", "methodology"] ∧
    extract_keywords "abc" n = ["research", "analysis", "study", "methodology"] ∧
    (∀ text : String, text.length < 20 →
      extract_keywords text n = ["research", "analysis", "study", "methodology"]) ∧
    (∀ text : String, (extract_keywords text n).length ≤ max n 4) := by
  have hshort : ∀ text : String, text.length < 20 →
      extract_keywords text n = ["research", "analysis", "study", "methodology"] := by
    intro text ht
    unfold extract_keywords
    have : (text = "" || text.length < 20 : Bool) = true := by
      simp [ht]
    rw [this]
    simp
  refine ⟨hshort "" (by decide), hshort "abc" (by decide), hshort, ?_⟩
  intro text
  unfold extract_keywords
  split
  · simp
  · dsimp only
    split
    · simp
    · calc (most_common n _).length ≤ n := by
            unfold most_common
            exact List.length_take_le n _
        _ ≤ max n 4 := Nat.le_max_left n 4

/-- Claim C10: for a text of length at least 20 in which no token of 4
or more letters survives stopword filtering, extract_keywords returns
the fixed list used on the no-surviving-token path, which differs from
the short-text fallback list. -/
theorem extract_keywords_filtered_empty_fallback (text : String) (n : Nat)
    (h20 : 20 ≤ text.length)
    (hnone : (findTokens (scrub (pyLower text))).filter
      (fun w => ¬ w ∈ common_words) = []) :
    extract_keywords text n = ["research", "analysis", "method", "application"] ∧
    (["research", "analysis", "method", "application"] : List String) ≠
      ["research", "analysis", "study", "methodology"] := by
  constructor
  · unfold extract_keywords
    have hne : text ≠ "" := by
      intro hc
      rw [hc] at h20
      simp at h20
    have hcond : (text = "" || text.length < 20 : Bool) = false := by
      simp [hne]
      omega
    rw [hcond]
    simp only [Bool.false_eq_true, if_false]
    rw [hnone]
    simp
  · decide

/-- Witness for claim C10 at a concrete input: a 23-character text all
of whose words are single letters. -/
theorem extract_keywords_filtered_empty_fallback_witness :
    20 ≤ ("a b c d e f g h i j k l" : String).length ∧
    (findTokens (scrub (pyLower "a b c d e f g h i j k l"))).filter
      (fun w => ¬ w ∈ common_words) = [] ∧
    extract_keywords "a b c d e f g h i j k l" 5 =
      ["research", "analysis", "method", "application"] :=
  ⟨by decide, by decide,
    (extract_keywords_filtered_empty_fallback "a b c d e f g h i j k l" 5
      (by decide) (by decide)).1⟩

/-- Witness for claim C3 discharging the short-input hypothesis at a
concrete 4-character text. -/
theorem extract_keywords_fallback_bound_witness :
    ("abcd" : String).length < 20 ∧
    extract_keywords "abcd" 7 = ["research", "analysis", "study", "methodology"] ∧
    (extract_keywords "abcd" 7).length ≤ max 7 4 :=
  ⟨by decide, (extract_keywords_fallback_bound 7).2.2.1 "abcd" (by decide),
    (extract_keywords_fallback_bound 7).2.2.2 "abcd"⟩

/-- Claim C4: identify_gaps is a pure function of the query (the papers
argument never affects the result); the three fixed keyword buckets are
tested in precedence order AI/ML, then climate, then health, first
match winning; the query "machine learning survey" selects the AI/ML
bucket verbatim; and the query "unrelated topic xyz" yields the 4
generic templated gap strings and 4 generic direction strings, each
containing the query as a literal substring. -/
theorem identify_gaps_buckets :
    (∀ (q : String) (p1 p2 : List PaperRecord),
      identify_gaps q p1 = identify_gaps q p2) ∧
    (∀ (q : String) (papers : List PaperRecord),
      (["ai", "artificial intelligence", "machine learning"].any
        (fun word => strIn word (pyLower q))) = true →
      identify_gaps q papers = gapAnalysisAI) ∧
    (∀ (q : String) (papers : List PaperRecord),
      (["ai", "artificial intelligence", "machine learning"].any
        (fun word => strIn word (pyLower q))) = false →
      (["climate", "environment", "sustainable"].any
        (fun word => strIn word (pyLower q))) = true →
      identify_gaps q papers = gapAnalysisClimate) ∧
    (∀ (q : String) (papers : List PaperRecord),
      (["ai", "artificial intelligence", "machine learning"].any
        (fun word => strIn word (pyLower q))) = false →
      (["climate", "environment", "sustainable"].any
        (fun word => strIn word (pyLower q))) = false →
      (["health", "medical", "biomedical"].any
        (fun word => strIn word (pyLower q))) = true →
      identify_gaps q papers = gapAnalysisHealth) ∧
    (∀ (q : String) (papers : List PaperRecord),
      (["ai", "artificial intelligence", "machine learning"].any
        (fun word => strIn word (pyLower q))) = false →
      (["climate", "environment", "sustainable"].any
        (fun word => strIn word (pyLower q))) = false →
      (["health", "medical", "biomedical"].any
        (fun word => strIn word (pyLower q))) = false →
      identify_gaps q papers = gapAnalysisGeneric q) ∧
    identify_gaps "machine learning survey" [] = gapAnalysisAI ∧
    identify_gaps "unrelated topic xyz" [] =
      gapAnalysisGeneric "unrelated topic xyz" ∧
    (gapAnalysisGeneric "unrelated topic xyz").gaps.length = 4 ∧
    (gapAnalysisGeneric "unrelated topic xyz").directions.length = 4 ∧
    (∀ g ∈ (gapAnalysisGeneric "unrelated topic xyz").gaps,
      strIn "unrelated topic xyz" g = true) ∧
    (∀ d ∈ (gapAnalysisGeneric "unrelated topic xyz").directions,
      strIn "unrelated topic xyz" d = true) := by
  refine ⟨?_, ?_, ?_, ?_, ?_, by decide, by decide, by decide, by decide,
    by decide, by decide⟩
  · intro q p1 p2; rfl
  · intro q papers h
    simp [identify_gaps, h]
  · intro q papers hai hcl
    simp [identify_gaps, hai, hcl]
  · intro q papers hai hcl hh
    simp [identify_gaps, hai, hcl, hh]
  · intro q papers hai hcl hh
    simp [identify_gaps, hai, hcl, hh]

/-- Witness for claim C4 discharging the bucket hypotheses at concrete
queries: the AI implication at "machine learning survey" and the
generic branch at "unrelated topic xyz". -/
theorem identify_gaps_buckets_witness :
    (["ai", "artificial intelligence", "machine learning"].any
      (fun word => strIn word (pyLower "machine learning survey"))) = true ∧
    identify_gaps "machine learning survey" [paperSample] = gapAnalysisAI :=
  ⟨by decide,
    identify_gaps_buckets.2.1 "machine learning survey" [paperSample] (by decide)⟩

/-- Claim C9: bucket matching uses substring containment on the
lowercased query, not word membership: any query whose lowercase form
contains the two-letter sequence ai selects the AI/ML bucket, as the
concrete queries "sustainable energy" and "chair design" illustrate,
even though the former also contains a climate-bucket term. -/
theorem identify_gaps_substring_matching (q : String) (papers : List PaperRecord)
    (h : strIn "ai" (pyLower q) = true) :
    identify_gaps q papers = gapAnalysisAI ∧
    identify_gaps "sustainable energy" [] = gapAnalysisAI ∧
    identify_gaps "chair design" [] = gapAnalysisAI := by
  refine ⟨?_, by decide, by decide⟩
  have hany : (["ai", "artificial intelligence", "machine learning"].any
      (fun word => strIn word (pyLower q))) = true := by
    simp [h]
  simp [identify_gaps, hany]

/-- Witness for claim C9 at the concrete query "sustainable energy",
whose lowercase form contains ai inside the word sustainable. -/
theorem identify_gaps_substring_matching_witness :
    strIn "ai" (pyLower "sustainable energy") = true ∧
    identify_gaps "sustainable energy" [paperSample] = gapAnalysisAI :=
  ⟨by decide,
    (identify_gaps_substring_matching "sustainable energy" [paperSample]
      (by decide)).1⟩

/-- Claim C1: for every non-empty query and positive max_per_source, the
aggregator returns at most max_per_source*2 records, their titles are
pairwise distinct under case-insensitive comparison, and the result is a
sublist of the merged (source or mock-fallback) list, so first-seen
order is preserved among the deduplicated records. -/
theorem search_all_sources_bounded_dedup (ssResp : SSResponse)
    (axResp : ArxivResponse) (r : MockRand) (cy : Nat) (query : String) (m : Nat)
    (hq : query ≠ "") (hm : 0 < m) :
    (search_all_sources ssResp axResp r cy query m).length ≤ m * 2 ∧
    (search_all_sources ssResp axResp r cy query m).Pairwise
      (fun a b => pyLower a.title ≠ pyLower b.title) ∧
    List.Sublist (search_all_sources ssResp axResp r cy query m)
      (let base := search_semantic_scholar ssResp r cy query m ++
          search_arxiv_simple axResp r cy query m
       if base.isEmpty then generate_mock_papers r cy query (m * 2) else base) := by
  unfold search_all_sources
  dsimp only
  refine ⟨List.length_take_le _ _, ?_, ?_⟩
  · exact List.Pairwise.sublist (List.take_sublist _ _) (pairwise_dedupByKey _ _ _)
  · exact (List.take_sublist _ _).trans (dedupByKey_sublist _ _ _)

/-- Witness for claim C1 at a concrete query with both sources answering
empty, which exercises the mock fallback path. -/
theorem search_all_sources_bounded_dedup_witness :
    ("quantum computing" : String) ≠ "" ∧ 0 < 3 ∧
    ((search_all_sources (SSResponse.http 200 (Except.ok []))
        (ArxivResponse.http 200 []) rZero 2025 "quantum computing" 3).length ≤ 3 * 2 ∧
      (search_all_sources (SSResponse.http 200 (Except.ok []))
        (ArxivResponse.http 200 []) rZero 2025 "quantum computing" 3).Pairwise
        (fun a b => pyLower a.title ≠ pyLower b.title) ∧
      List.Sublist
        (search_all_sources (SSResponse.http 200 (Except.ok []))
          (ArxivResponse.http 200 []) rZero 2025 "quantum computing" 3)
        (let base := search_semantic_scholar (SSResponse.http 200 (Except.ok []))
            rZero 2025 "quantum computing" 3 ++
            search_arxiv_simple (ArxivResponse.http 200 []) rZero 2025
              "quantum computing" 3
         if base.isEmpty then generate_mock_papers rZero 2025 "quantum computing"
            (3 * 2)
         else base)) :=
  ⟨by decide, by decide,
    search_all_sources_bounded_dedup (SSResponse.http 200 (Except.ok []))
      (ArxivResponse.http 200 []) rZero 2025 "quantum computing" 3
      (by decide) (by decide)⟩

/-- Claim C8, counterexample: on the empty paper list the summary
dictionary of the source has no fields key at all (modelled by none), so
a fields entry of at most 5 strings is not present for every input. -/
theorem analyze_trends_empty_no_fields :
    (analyze_trends (fun _ => 0) []).fields = none := rfl

/-- Claim C8, amended: for every non-empty list of papers the summary
carries a fields entry holding at most 5 pairwise-distinct strings, and
a recent_years entry holding at most 3 pairwise-distinct years in
strictly descending order; on the empty list the fields key is absent. -/
theorem analyze_trends_fields_years (kr : Nat → Nat) (papers : List PaperRecord)
    (h : papers ≠ []) :
    (analyze_trends kr papers).fields ≠ none ∧
    ((analyze_trends kr papers).fields.getD []).length ≤ 5 ∧
    ((analyze_trends kr papers).fields.getD []).Nodup ∧
    (analyze_trends kr papers).recent_years.length ≤ 3 ∧
    (analyze_trends kr papers).recent_years.Nodup ∧
    (analyze_trends kr papers).recent_years.Pairwise (fun a b => b < a) := by
  have key : ∀ ys : List Nat,
      (if ys.isEmpty then ([] : List Nat)
       else (sortDescNat (dedupFirst ys)).take 3).length ≤ 3 ∧
      (if ys.isEmpty then ([] : List Nat)
       else (sortDescNat (dedupFirst ys)).take 3).Nodup ∧
      (if ys.isEmpty then ([] : List Nat)
       else (sortDescNat (dedupFirst ys)).take 3).Pairwise (fun a b => b < a) := by
    intro ys
    split
    · simp
    · have hstrict := strict_sorted_sortDescNat (dedupFirst ys) (nodup_dedupFirst ys)
      have htake := List.Pairwise.sublist (List.take_sublist 3 _) hstrict
      refine ⟨List.length_take_le _ _, ?_, htake⟩
      exact htake.imp (fun hab => by omega)
  have hne : papers.isEmpty = false := by
    cases papers with
    | nil => exact absurd rfl h
    | cons x xs => rfl
  unfold analyze_trends
  rw [hne]
  simp only [Bool.false_eq_true, if_false]
  refine ⟨by simp, ?_, ?_, (key _).1, (key _).2.1, (key _).2.2⟩
  · simp only [Option.getD_some]
    exact List.length_take_le _ _
  · simp only [Option.getD_some]
    exact List.Nodup.sublist (List.take_sublist 5 _) (nodup_dedupFirst _)

/-- Witness for claim C8 at a concrete one-element paper list. -/
theorem analyze_trends_fields_years_witness :
    ([paperSample] : List PaperRecord) ≠ [] ∧
    ((analyze_trends (fun _ => 0) [paperSample]).fields ≠ none ∧
      ((analyze_trends (fun _ => 0) [paperSample]).fields.getD []).length ≤ 5 ∧
      ((analyze_trends (fun _ => 0) [paperSample]).fields.getD []).Nodup ∧
      (analyze_trends (fun _ => 0) [paperSample]).recent_years.length ≤ 3 ∧
      (analyze_trends (fun _ => 0) [paperSample]).recent_years.Nodup ∧
      (analyze_trends (fun _ => 0) [paperSample]).recent_years.Pairwise
        (fun a b => b < a)) :=
  ⟨by decide, analyze_trends_fields_years (fun _ => 0) [paperSample] (by decide)⟩

theorem mock_template_le (a b q : String) (k : Nat)
    (h : a.length + b.length ≤ k) :
    (a ++ q ++ b).length ≤ k + q.length := by
  rw [String.length_append, String.length_append]
  omega

theorem mock_template3_le (a b c q d : String) (k : Nat)
    (h : a.length + b.length + c.length ≤ k) (hd : d.length ≤ 23) :
    (a ++ q ++ b ++ d ++ c).length ≤ k + 23 + q.length := by
  simp only [String.length_append]
  omega

theorem domain_length_le (j : Nat) :
    (domains.getD (j % domains.length) "").length ≤ 23 := by
  have hb : ∀ i < domains.length, (domains.getD i "").length ≤ 23 := by decide
  exact hb _ (Nat.mod_lt _ (by decide))

theorem mock_abstract_le (q d : String) (hd : d.length ≤ 23) :
    ∀ a ∈ mock_abstracts q d, a.length ≤ 238 + q.length := by
  intro a ha
  simp only [mock_abstracts, List.mem_cons, List.not_mem_nil, or_false] at ha
  rcases ha with rfl | rfl | rfl | rfl | rfl
  · exact mock_template_le _ _ q 238 (by decide)
  · exact mock_template_le _ _ q 238 (by decide)
  · have := mock_template3_le "The intersection of " " and "
      " represents a fertile ground for innovation. This research explores synergistic effects that could lead to major breakthroughs. Experimental results validate our theoretical framework."
      q d 215 (by decide) hd
    omega
  · exact mock_template_le _ _ q 238 (by decide)
  · exact mock_template_le _ _ q 238 (by decide)

theorem generate_mock_papers_abstract_le (r : MockRand) (cy : Nat) (q : String)
    (cnt : Nat) :
    ∀ p ∈ generate_mock_papers r cy q cnt, p.abstract.length ≤ 238 + q.length := by
  intro p hp
  unfold generate_mock_papers at hp
  rcases List.mem_map.mp hp with ⟨i, hi, rfl⟩
  have hi5 : i < 5 := lt_of_lt_of_le (List.mem_range.mp hi) (min_le_right _ _)
  have hlen : i < (mock_abstracts q (domains.getD (r.domainIdx % domains.length) "")).length := by
    simpa [mock_abstracts] using hi5
  have hmem : (mock_abstracts q (domains.getD (r.domainIdx % domains.length) "")).getD i "" ∈
      mock_abstracts q (domains.getD (r.domainIdx % domains.length) "") := by
    rw [List.getD_eq_getElem _ _ hlen]
    exact List.getElem_mem hlen
  exact mock_abstract_le q _ (domain_length_le r.domainIdx) _ hmem

/-- Claim C5, counterexample: the mock generator does not truncate its
abstracts; with a 400-character query the first mock paper's abstract
exceeds 400 characters. -/
theorem mock_abstract_overflow_counterexample :
    400 < ((generate_mock_papers rZero 2025 (String.mk (List.replicate 400 'a')) 1).headD
      paperSample).abstract.length := by
  have habs : ((generate_mock_papers rZero 2025 (String.mk (List.replicate 400 'a')) 1).headD
      paperSample).abstract =
      "This paper presents groundbreaking research on " ++
        String.mk (List.replicate 400 'a') ++
        ". Our study reveals new insights that challenge existing paradigms in the field. The methodology combines traditional approaches with innovative techniques to achieve unprecedented results." := rfl
  rw [habs, String.length_append, String.length_append]
  have hq : (String.mk (List.replicate 400 'a')).length = 400 := by
    show (List.replicate 400 'a').length = 400
    simp
  have hpos : 0 < ("This paper presents groundbreaking research on " : String).length := by
    decide
  omega

/-- Claim C5, amended: records built on the scholarly-graph client's
successful parse path and all records of the preprint client have
abstracts of at most 400 characters for every query; mock-generated
abstracts (also returned by the scholarly-graph client on failure) are
untruncated templates and respect the 400-character bound exactly when
the query is short, at most 162 characters. -/
theorem abstracts_bounded (resp : SSResponse) (axResp : ArxivResponse)
    (r : MockRand) (cy : Nat) (q : String) (n cnt : Nat) :
    (∀ data : List SSRawPaper,
      ∀ p ∈ search_semantic_scholar (SSResponse.http 200 (Except.ok data)) r cy q n,
        p.abstract.length ≤ 400) ∧
    (∀ p ∈ search_arxiv_simple axResp r cy q n, p.abstract.length ≤ 400) ∧
    (q.length ≤ 162 →
      ∀ p ∈ generate_mock_papers r cy q cnt, p.abstract.length ≤ 400) ∧
    (q.length ≤ 162 →
      ∀ p ∈ search_semantic_scholar resp r cy q n, p.abstract.length ≤ 400) := by
  have hok : ∀ data : List SSRawPaper,
      ∀ p ∈ search_semantic_scholar (SSResponse.http 200 (Except.ok data)) r cy q n,
        p.abstract.length ≤ 400 := by
    intro data p hp
    simp only [search_semantic_scholar] at hp
    rw [if_neg (by simp)] at hp
    rcases List.mem_map.mp hp with ⟨ip, _, rfl⟩
    exact pySlice_length_le _ 400
  have hmock : q.length ≤ 162 →
      ∀ (c : Nat), ∀ p ∈ generate_mock_papers r cy q c, p.abstract.length ≤ 400 := by
    intro hq c p hp
    have := generate_mock_papers_abstract_le r cy q c p hp
    omega
  refine ⟨hok, ?_, fun hq => hmock hq cnt, ?_⟩
  · intro p hp
    cases axResp with
    | raiseExc m => simp [search_arxiv_simple] at hp
    | http st entries =>
      simp only [search_arxiv_simple] at hp
      split at hp
      · simp at hp
      · rcases List.mem_map.mp hp with ⟨ip, _, rfl⟩
        exact pySlice_length_le _ 400
  · intro hq p hp
    cases resp with
    | raiseExc m =>
      exact hmock hq n p hp
    | http st body =>
      simp only [search_semantic_scholar] at hp
      split at hp
      · exact hmock hq n p hp
      · cases body with
        | error e => exact hmock hq n p hp
        | ok data =>
          rcases List.mem_map.mp hp with ⟨ip, _, rfl⟩
          exact pySlice_length_le _ 400

/-- Witness for claim C5 discharging the short-query hypothesis at a
concrete query for the mock generator and the full scholarly client. -/
theorem abstracts_bounded_witness :
    ("quantum computing" : String).length ≤ 162 ∧
    (∀ p ∈ generate_mock_papers rZero 2025 "quantum computing" 3,
      p.abstract.length ≤ 400) ∧
    (∀ p ∈ search_semantic_scholar (SSResponse.raiseExc "timeout") rZero 2025
        "quantum computing" 3, p.abstract.length ≤ 400) :=
  ⟨by decide,
    (abstracts_bounded (SSResponse.raiseExc "timeout") (ArxivResponse.raiseExc "t")
      rZero 2025 "quantum computing" 3 3).2.2.1 (by decide),
    (abstracts_bounded (SSResponse.raiseExc "timeout") (ArxivResponse.raiseExc "t")
      rZero 2025 "quantum computing" 3 3).2.2.2 (by decide)⟩

/-- Claim C6, counterexample: on a successful response with an empty
data list the scholarly-graph client returns the empty list instead of
deferring to the mock generator, which would have produced 3 records for
the same arguments. -/
theorem semantic_scholar_empty_counterexample :
    search_semantic_scholar (SSResponse.http 200 (Except.ok [])) rZero 2025
      "quantum computing" 3 = [] ∧
    (generate_mock_papers rZero 2025 "quantum computing" 3).length = 3 := by
  constructor
  · rfl
  · rfl

/-- Claim C6, amended: the scholarly-graph client never raises and
defers to the mock generator on a raised exception, a non-200 status, or
a body-parse failure, while an empty successful result yields the empty
list (the mock fallback for that case lives in the aggregator); the
preprint client never raises and returns the empty list on a raised
exception or a non-200 status. -/
theorem source_clients_degrade (msg e : String) (st : Nat)
    (body : Except String (List SSRawPaper)) (entries : List ArxivRawEntry)
    (r : MockRand) (cy : Nat) (q : String) (n : Nat) (hst : st ≠ 200) :
    search_semantic_scholar (SSResponse.raiseExc msg) r cy q n =
      generate_mock_papers r cy q n ∧
    search_semantic_scholar (SSResponse.http st body) r cy q n =
      generate_mock_papers r cy q n ∧
    search_semantic_scholar (SSResponse.http 200 (Except.error e)) r cy q n =
      generate_mock_papers r cy q n ∧
    search_arxiv_simple (ArxivResponse.raiseExc msg) r cy q n = [] ∧
    search_arxiv_simple (ArxivResponse.http st entries) r cy q n = [] ∧
    search_semantic_scholar (SSResponse.http 200 (Except.ok [])) r cy q n = [] := by
  refine ⟨rfl, ?_, ?_, rfl, ?_, ?_⟩
  · simp [search_semantic_scholar, hst]
  · simp [search_semantic_scholar]
  · simp [search_arxiv_simple, hst]
  · simp [search_semantic_scholar]

/-- Witness for claim C6 discharging the non-200 hypothesis at status
404. -/
theorem source_clients_degrade_witness :
    (404 : Nat) ≠ 200 ∧
    search_semantic_scholar (SSResponse.http 404 (Except.ok [])) rZero 2025
      "quantum computing" 3 = generate_mock_papers rZero 2025 "quantum computing" 3 ∧
    search_arxiv_simple (ArxivResponse.http 404 []) rZero 2025
      "quantum computing" 3 = [] :=
  ⟨by decide,
    (source_clients_degrade "boom" "parse" 404 (Except.ok []) [] rZero 2025
      "quantum computing" 3 (by decide)).2.1,
    (source_clients_degrade "boom" "parse" 404 (Except.ok []) [] rZero 2025
      "quantum computing" 3 (by decide)).2.2.2.2.1⟩

end ResearchAnalyzer
